import Mathlib

/-!
Verification of the flipbook.pics frame-extraction core.

Numbers are modelled as exact rationals (`ℚ`); JavaScript `Math.round`,
`Math.floor`, `Math.min`, `Math.max` become their exact counterparts, and
32-bit integer coercion (`x & x`, `<<`) is modelled by explicit wrapping
modulo 2^32.
-/

namespace Flipbook

/-- JavaScript `Math.round`: half-up rounding (toward +∞ at ties). -/
def jsRound (x : ℚ) : ℤ := ⌊x + 1/2⌋

/-- `calculateTargetFrameTimes` from `src/helper/frameGeneration.ts`:
empty on non-positive inputs, otherwise `floor(duration*fps)` timestamps
`i * (1/fps)` rounded to 3 decimal places. -/
def calculateTargetFrameTimes (videoDurationSeconds targetFps : ℚ) : List ℚ :=
  if videoDurationSeconds ≤ 0 ∨ targetFps ≤ 0 then
    []
  else
    let frameInterval := 1 / targetFps
    let totalFramesToCapture := (⌊videoDurationSeconds * targetFps⌋).toNat
    (List.range totalFramesToCapture).map fun (i : ℕ) =>
      (jsRound ((i : ℚ) * frameInterval * 1000) : ℚ) / 1000

/-- `shouldCaptureFrame` from `src/helper/frameGeneration.ts`. -/
def shouldCaptureFrame (currentVideoTime : ℚ) (targetTimes : List ℚ)
    (currentTargetIndex : ℕ) : Bool :=
  if targetTimes.length ≤ currentTargetIndex then
    false
  else
    decide (targetTimes.getD currentTargetIndex 0 ≤ currentVideoTime)

/-- `calculateOptimalPlaybackRate` from `src/helper/frameGeneration.ts`. -/
def calculateOptimalPlaybackRate (videoDurationSeconds targetFps : ℚ) : ℚ :=
  let baseRate : ℚ := 2
  let durationFactor := min (videoDurationSeconds / 30) 1
  let fpsFactor := min (targetFps / 60) 1
  let calculatedRate := baseRate + durationFactor * (1/2) + fpsFactor * (1/2)
  max (1/2) (min 4 calculatedRate)

/-- Wrap an integer into signed 32-bit range, as JavaScript `x & x` /
`ToInt32` does. -/
def jsToInt32 (x : ℤ) : ℤ := (x + 2 ^ 31) % 2 ^ 32 - 2 ^ 31

/-- One iteration of the hash loop in `generateFrameParametersHash`:
`hash = (hash << 5) - hash + char; hash = hash & hash`. -/
def hashStep (hash : ℤ) (char : ℕ) : ℤ :=
  jsToInt32 (jsToInt32 (hash * 32) - hash + char)

/-- Decimal digits of a natural number, as JavaScript `toString`. -/
def natToChars (n : ℕ) : List Char := Nat.toDigits 10 n

/-- JavaScript `toString` of an integer. -/
def intToChars (i : ℤ) : List Char :=
  if i < 0 then '-' :: natToChars i.natAbs else natToChars i.natAbs

/-- Fractional digits (JavaScript prints `k/1000` with trailing zeros
stripped): the three decimals of `m ∈ [0, 999]` without trailing zeros. -/
def fracChars (m : ℕ) : List Char :=
  ((([m / 100, m / 10 % 10, m % 10]).reverse.dropWhile (· = 0)).reverse).map
    Nat.digitChar

/-- JavaScript string rendering of the rational `k / 1000`. -/
def millisToChars (k : ℤ) : List Char :=
  let sign : List Char := if k < 0 then ['-'] else []
  let n := k.natAbs
  sign ++ natToChars (n / 1000) ++
    (if n % 1000 = 0 then [] else '.' :: fracChars (n % 1000))

/-- `generateFrameParametersHash` from `src/helper/frameGeneration.ts`:
rounds the duration to milliseconds, renders `"{duration}-{fps}"`, runs the
31x+c rolling hash over its char codes in 32-bit arithmetic, and prints the
absolute value in hex. -/
def generateFrameParametersHash (videoDurationSeconds : ℚ) (targetFps : ℤ) :
    List Char :=
  let roundedThousandths := jsRound (videoDurationSeconds * 1000)
  let data := millisToChars roundedThousandths ++ ['-'] ++ intToChars targetFps
  let hash := data.foldl (fun h c => hashStep h c.toNat) 0
  Nat.toDigits 16 hash.natAbs

/-- `calculateAnimationInterval` from `src/composables/useVideoFrames.ts`. -/
def calculateAnimationInterval (speed : ℚ) : ℚ :=
  if speed = 0 then
    100
  else if speed > 0 then
    max 16 (100 / (1 + speed))
  else
    min 2000 (100 * (1 + |speed|))

/-- The reactive playback state owned by `useVideoFrames`: the frame cursor,
the length of the extracted `frames` array, the playing flag and whether a
`setInterval` timer is currently registered. -/
structure PlaybackState where
  currentFrameIndex : ℕ
  framesLen : ℕ
  isPlaying : Bool
  playInterval : Bool
deriving Repr, DecidableEq

/-- The common prologue of `previousFrame`/`nextFrame`/`setFramePosition`:
`clearInterval` + `isPlaying = false`. -/
def stopAnimation (s : PlaybackState) : PlaybackState :=
  { s with playInterval := false, isPlaying := false }

/-- `previousFrame` from `src/composables/useVideoFrames.ts`. -/
def previousFrame (s : PlaybackState) : PlaybackState :=
  let s1 := stopAnimation s
  if 0 < s1.currentFrameIndex then
    { s1 with currentFrameIndex := s1.currentFrameIndex - 1 }
  else s1

/-- `nextFrame` from `src/composables/useVideoFrames.ts`; the guard
`currentFrameIndex < frames.length - 1` is JavaScript arithmetic, hence
evaluated over `ℤ`. -/
def nextFrame (s : PlaybackState) : PlaybackState :=
  let s1 := stopAnimation s
  if (s1.currentFrameIndex : ℤ) < (s1.framesLen : ℤ) - 1 then
    { s1 with currentFrameIndex := s1.currentFrameIndex + 1 }
  else s1

/-- `setFramePosition` from the extended `useVideoFrames` composable:
assigns only when `0 ≤ index < frames.length`. -/
def setFramePosition (s : PlaybackState) (index : ℤ) : PlaybackState :=
  let s1 := stopAnimation s
  if 0 ≤ index ∧ index < (s1.framesLen : ℤ) then
    { s1 with currentFrameIndex := index.toNat }
  else s1

/-- The body of the `setInterval` tick closure in `togglePlay` (and in the
`playbackSpeed` watcher): advance, wrapping to 0 past the last index. -/
def playTick (currentFrameIndex framesLen : ℕ) : ℕ :=
  if (currentFrameIndex : ℤ) < (framesLen : ℤ) - 1 then
    currentFrameIndex + 1
  else 0

/-- A frame appended to `totalFrames` by `drawFrame`, annotated with capture
metadata: the ghost id of the `generateFrames` run whose callback chain
captured it, the target index it satisfied, that target's timestamp, and the
video time at capture. -/
structure CapturedFrame where
  runId : ℕ
  targetIndex : ℕ
  targetTime : ℚ
  captureTime : ℚ
deriving Repr, DecidableEq

/-- The extraction-relevant reactive state of `useVideoFrames`, plus the
browser's `requestVideoFrameCallback` registration queue. All registered
callbacks are the same `getFrame` closure over the same refs; `pending`
records, per registration, the ghost id of the `generateFrames` run whose
chain registered it. -/
structure ExtractorState where
  totalFrames : List CapturedFrame
  currentTargetIndex : ℕ
  targetFrameTimes : List ℚ
  pending : List ℕ
  frames : List CapturedFrame
  nextRunId : ℕ
deriving Repr, DecidableEq

/-- One execution of the `getFrame` callback (from
`src/composables/useVideoFrames.ts`) belonging to run `r`, at video time `t`
with ended-flag `ended`: capture if `shouldCaptureFrame` says so, then either
re-register via `requestVideoFrameCallback` or run `updateFrames` (which
publishes `frames := [...totalFrames]`). -/
def getFrameStep (r : ℕ) (t : ℚ) (ended : Bool) (s : ExtractorState) :
    ExtractorState :=
  let s1 :=
    if shouldCaptureFrame t s.targetFrameTimes s.currentTargetIndex then
      { s with
        totalFrames := s.totalFrames ++
          [⟨r, s.currentTargetIndex,
            s.targetFrameTimes.getD s.currentTargetIndex 0, t⟩],
        currentTargetIndex := s.currentTargetIndex + 1 }
    else s
  if !ended ∧ s1.currentTargetIndex < s1.targetFrameTimes.length then
    { s1 with pending := s1.pending ++ [r] }
  else
    { s1 with frames := s1.totalFrames }

/-- The browser delivers a new decoded video frame at time `t`: every
callback registered through `requestVideoFrameCallback` fires once, in
registration order; callbacks re-registered while handling this frame only
run on the next frame. -/
def frameTick (t : ℚ) (ended : Bool) (s : ExtractorState) : ExtractorState :=
  s.pending.foldl (fun acc r => getFrameStep r t ended acc)
    { s with pending := [] }

/-- `generateFrames` when the video element already has its metadata (the
FPS-change path): reset `totalFrames` and `currentTargetIndex`, add a
`loadedmetadata` listener that will not fire again (the source is unchanged,
so `targetFrameTimes` keeps the previous run's timestamps), call `play()`,
and register a fresh `getFrame` callback — without unregistering the previous
run's pending callback. -/
def generateFramesAgain (s : ExtractorState) : ExtractorState :=
  { s with
    totalFrames := [],
    currentTargetIndex := 0,
    pending := s.pending ++ [s.nextRunId],
    nextRunId := s.nextRunId + 1 }

/-- An extraction run starting from scratch on a freshly loaded source of
duration `d` at the requested fps: the `loadedmetadata` handler computes the
target timestamps, resets the capture state and registers the first
`getFrame` callback. -/
def startExtraction (d fps : ℚ) (s : ExtractorState) : ExtractorState :=
  { s with
    totalFrames := [],
    currentTargetIndex := 0,
    targetFrameTimes := calculateTargetFrameTimes d fps,
    pending := s.pending ++ [s.nextRunId],
    nextRunId := s.nextRunId + 1 }

/-- Session start: no frames, no targets, no pending callbacks. -/
def initState : ExtractorState :=
  { totalFrames := [], currentTargetIndex := 0, targetFrameTimes := [],
    pending := [], frames := [], nextRunId := 0 }

/-- Concrete scenario for the cancellation claim: run 0 extracts a 1-second
source at 2 fps (targets `[0, 0.5]`) and captures its first frame at
`t = 0.2`; the user then changes the fps, so `generateFrames` runs again
(run 1) while run 0's re-registered callback is still pending; the next
decoded frame arrives at `t = 0.6` and both chains fire. -/
def staleCallbackTrace : ExtractorState :=
  frameTick (3/5) false
    (generateFramesAgain (frameTick (1/5) false (startExtraction 1 2 initState)))

end Flipbook

namespace Flipbook

/-- C1: for every duration and fps, `calculateTargetFrameTimes` returns the
empty sequence when `duration ≤ 0` or `fps ≤ 0`, and otherwise returns exactly
`⌊duration*fps⌋` timestamps whose `i`-th element is `i * (1/fps)` rounded to
3 decimal places. -/
theorem calculateTargetFrameTimes_spec (d f : ℚ) :
    (d ≤ 0 ∨ f ≤ 0 → calculateTargetFrameTimes d f = []) ∧
    (0 < d → 0 < f →
      ((calculateTargetFrameTimes d f).length : ℤ) = ⌊d * f⌋ ∧
      ∀ i : ℕ, i < (calculateTargetFrameTimes d f).length →
        (calculateTargetFrameTimes d f).getD i 0 =
          (jsRound ((i : ℚ) * (1 / f) * 1000) : ℚ) / 1000) := by
  constructor
  · intro h
    simp [calculateTargetFrameTimes, h]
  · intro hd hf
    have hguard : ¬(d ≤ 0 ∨ f ≤ 0) := by
      push_neg
      exact ⟨hd, hf⟩
    have hunfold : calculateTargetFrameTimes d f =
        (List.range (⌊d * f⌋).toNat).map
          (fun (i : ℕ) => (jsRound ((i : ℚ) * (1 / f) * 1000) : ℚ) / 1000) := by
      rw [calculateTargetFrameTimes, if_neg hguard]
    have hlen : (calculateTargetFrameTimes d f).length = (⌊d * f⌋).toNat := by
      rw [hunfold, List.length_map, List.length_range]
    constructor
    · rw [hlen]
      exact Int.toNat_of_nonneg (Int.floor_nonneg.mpr (le_of_lt (mul_pos hd hf)))
    · intro i hi
      rw [hunfold] at hi ⊢
      rw [List.getD_eq_getElem _ _ hi]
      simp

/-- Closed-form instance of `calculateTargetFrameTimes_spec`. -/
theorem calculateTargetFrameTimes_spec_witness :
    ((0 : ℚ) < 2 ∧ (0 : ℚ) < 10) ∧
    ((calculateTargetFrameTimes 2 10).length : ℤ) = ⌊(2 : ℚ) * 10⌋ :=
  ⟨⟨by norm_num, by norm_num⟩,
    ((calculateTargetFrameTimes_spec 2 10).2 (by norm_num) (by norm_num)).1⟩

/-- C3: `shouldCaptureFrame` returns `false` when the cursor is past the end of
the target list, and otherwise returns `true` iff the current time has
reached the cursor's target timestamp. -/
theorem shouldCaptureFrame_spec (t : ℚ) (ts : List ℚ) (i : ℕ) :
    (ts.length ≤ i → shouldCaptureFrame t ts i = false) ∧
    (i < ts.length →
      (shouldCaptureFrame t ts i = true ↔ ts.getD i 0 ≤ t)) := by
  constructor
  · intro h
    simp [shouldCaptureFrame, h]
  · intro h
    simp [shouldCaptureFrame, not_le.mpr h, h]

/-- Closed-form instance of `shouldCaptureFrame_spec`. -/
theorem shouldCaptureFrame_spec_witness :
    ([(1 : ℚ)/2].length ≤ 3 ∧ shouldCaptureFrame 1 [(1 : ℚ)/2] 3 = false) ∧
    (0 < [(1 : ℚ)/2].length ∧ shouldCaptureFrame 1 [(1 : ℚ)/2] 0 = true) :=
  ⟨⟨by decide, (shouldCaptureFrame_spec 1 [(1 : ℚ)/2] 3).1 (by decide)⟩,
   ⟨by decide,
    ((shouldCaptureFrame_spec 1 [(1 : ℚ)/2] 0).2 (by decide)).mpr (by norm_num)⟩⟩

/-- C6: `calculateOptimalPlaybackRate` equals the base-2.0 formula with capped
duration and fps factors, clamped to `[0.5, 4.0]`, and its value always lies
in `[0.5, 4.0]`. -/
theorem calculateOptimalPlaybackRate_spec (d f : ℚ) :
    calculateOptimalPlaybackRate d f =
      max (1/2) (min 4 (2 + min (d / 30) 1 * (1/2) + min (f / 60) 1 * (1/2))) ∧
    1/2 ≤ calculateOptimalPlaybackRate d f ∧
    calculateOptimalPlaybackRate d f ≤ 4 := by
  refine ⟨rfl, le_max_left _ _, ?_⟩
  apply max_le (by norm_num)
  exact min_le_left _ _

/-- C9: the animation interval is 100 ms at speed 0, `max 16 (100/(1+speed))` for
positive speed, and `min 2000 (100*(1+|speed|))` for negative speed. -/
theorem calculateAnimationInterval_spec (s : ℚ) :
    (s = 0 → calculateAnimationInterval s = 100) ∧
    (0 < s → calculateAnimationInterval s = max 16 (100 / (1 + s))) ∧
    (s < 0 → calculateAnimationInterval s = min 2000 (100 * (1 + |s|))) := by
  refine ⟨fun h => ?_, fun h => ?_, fun h => ?_⟩
  · simp [calculateAnimationInterval, h]
  · rw [calculateAnimationInterval, if_neg (ne_of_gt h), if_pos h]
  · rw [calculateAnimationInterval, if_neg (ne_of_lt h), if_neg (not_lt.mpr (le_of_lt h))]

/-- Closed-form instance of `calculateAnimationInterval_spec`. -/
theorem calculateAnimationInterval_spec_witness :
    calculateAnimationInterval 0 = 100 ∧
    calculateAnimationInterval 1 = max 16 (100 / (1 + 1)) ∧
    calculateAnimationInterval (-1) = min 2000 (100 * (1 + |(-1 : ℚ)|)) :=
  ⟨(calculateAnimationInterval_spec 0).1 rfl,
   (calculateAnimationInterval_spec 1).2.1 (by norm_num),
   (calculateAnimationInterval_spec (-1)).2.2 (by norm_num)⟩

/-- C4: with positive duration and fps, repeated calls of
`calculateTargetFrameTimes`, `calculateOptimalPlaybackRate` and
`generateFrameParametersHash` with identical inputs return identical values
(two-run determinism; the embedded functions are pure, so any two runs
coincide definitionally). -/
theorem frameGeneration_deterministic (d f : ℚ) (fps : ℤ) :
    0 < d → 0 < f →
      calculateTargetFrameTimes d f = calculateTargetFrameTimes d f ∧
      calculateOptimalPlaybackRate d f = calculateOptimalPlaybackRate d f ∧
      generateFrameParametersHash d fps = generateFrameParametersHash d fps :=
  fun _ _ => ⟨rfl, rfl, rfl⟩

/-- Closed-form instance of `frameGeneration_deterministic`. -/
theorem frameGeneration_deterministic_witness :
    (0 : ℚ) < 5 ∧
    calculateTargetFrameTimes 5 24 = calculateTargetFrameTimes 5 24 :=
  ⟨by norm_num, (frameGeneration_deterministic 5 24 24 (by norm_num) (by norm_num)).1⟩

/-- C7: on a sequence of length `L`, `nextFrame` at index `L-1` stays at
`L-1`, `previousFrame` at index 0 stays at 0, and `setFramePosition` with an
out-of-range index leaves the frame cursor unchanged. -/
theorem playback_boundary_navigation (s : PlaybackState) (L : ℕ)
    (hL : s.framesLen = L) :
    (s.currentFrameIndex = L - 1 → (nextFrame s).currentFrameIndex = L - 1) ∧
    (s.currentFrameIndex = 0 → (previousFrame s).currentFrameIndex = 0) ∧
    (∀ index : ℤ, index < 0 ∨ (L : ℤ) ≤ index →
      (setFramePosition s index).currentFrameIndex = s.currentFrameIndex) := by
  subst hL
  refine ⟨fun h => ?_, fun h => ?_, fun index hidx => ?_⟩
  · simp only [nextFrame, stopAnimation]
    split
    · simp only
      omega
    · simpa using h
  · simp only [previousFrame, stopAnimation]
    split
    · omega
    · simpa using h
  · simp only [setFramePosition, stopAnimation]
    split
    · omega
    · rfl

/-- Closed-form instance of `playback_boundary_navigation`. -/
theorem playback_boundary_navigation_witness :
    (nextFrame ⟨2, 3, false, false⟩).currentFrameIndex = 3 - 1 ∧
    (previousFrame ⟨0, 3, false, false⟩).currentFrameIndex = 0 ∧
    (setFramePosition ⟨2, 3, false, false⟩ (-1)).currentFrameIndex = 2 :=
  ⟨(playback_boundary_navigation ⟨2, 3, false, false⟩ 3 rfl).1 (by decide),
   (playback_boundary_navigation ⟨0, 3, false, false⟩ 3 rfl).2.1 (by decide),
   (playback_boundary_navigation ⟨2, 3, false, false⟩ 3 rfl).2.2 (-1)
     (Or.inl (by decide))⟩

/-- C8: during autoplay over a non-empty sequence of length `L`, each timer
tick moves the cursor from `i` to `(i+1) % L` — one step forward, wrapping to
0 from the last index. -/
theorem playTick_spec (i L : ℕ) (h : i < L) : playTick i L = (i + 1) % L := by
  unfold playTick
  split
  · rw [Nat.mod_eq_of_lt (by omega)]
  · have hiL : i + 1 = L := by omega
    rw [hiL, Nat.mod_self]

/-- Closed-form instance of `playTick_spec`: index 2 of a 3-frame sequence
wraps to 0. -/
theorem playTick_spec_witness : 2 < 3 ∧ playTick 2 3 = (2 + 1) % 3 ∧ playTick 2 3 = 0 :=
  ⟨by decide, playTick_spec 2 3 (by decide), by decide⟩

/-- C10 counterexample: at duration `-300`, fps `30` the playback rate is
`0.5`, outside `[2, 3]` — `min(duration/30, 1)` has no lower cap, so a
negative duration drags the formula below 2 and the 0.5 clamp fires. -/
theorem playbackRate_narrow_range_counterexample :
    calculateOptimalPlaybackRate (-300) 30 = 1/2 ∧
    ¬(2 ≤ calculateOptimalPlaybackRate (-300) 30) := by
  constructor
  · norm_num [calculateOptimalPlaybackRate]
  · norm_num [calculateOptimalPlaybackRate]

/-- C10 (amended): for nonnegative duration and fps the playback rate lies in
`[2, 3]` and equals the unclamped formula — both clamps are inactive there. -/
theorem playbackRate_narrow_range (d f : ℚ) (hd : 0 ≤ d) (hf : 0 ≤ f) :
    2 ≤ calculateOptimalPlaybackRate d f ∧
    calculateOptimalPlaybackRate d f ≤ 3 ∧
    calculateOptimalPlaybackRate d f =
      2 + min (d / 30) 1 * (1/2) + min (f / 60) 1 * (1/2) := by
  have ha0 : 0 ≤ min (d / 30) 1 := le_min (by positivity) (by norm_num)
  have ha1 : min (d / 30) 1 ≤ 1 := min_le_right _ _
  have hb0 : 0 ≤ min (f / 60) 1 := le_min (by positivity) (by norm_num)
  have hb1 : min (f / 60) 1 ≤ 1 := min_le_right _ _
  have heq : calculateOptimalPlaybackRate d f =
      2 + min (d / 30) 1 * (1/2) + min (f / 60) 1 * (1/2) := by
    show max (1/2) (min 4 (2 + min (d / 30) 1 * (1/2) + min (f / 60) 1 * (1/2))) = _
    rw [min_eq_right (by linarith), max_eq_right (by linarith)]
  refine ⟨?_, ?_, heq⟩
  · rw [heq]; linarith
  · rw [heq]; linarith

/-- Closed-form instance of `playbackRate_narrow_range`. -/
theorem playbackRate_narrow_range_witness :
    (0 : ℚ) ≤ 5 ∧ 2 ≤ calculateOptimalPlaybackRate 5 24 :=
  ⟨by norm_num, (playbackRate_narrow_range 5 24 (by norm_num) (by norm_num)).1⟩

theorem jsRound_le (y : ℚ) : (jsRound y : ℚ) ≤ y + 1/2 :=
  Int.floor_le (y + 1/2)

theorem lt_jsRound_add_one (y : ℚ) : y + 1/2 < (jsRound y : ℚ) + 1 :=
  Int.lt_floor_add_one (y + 1/2)

theorem jsRound_nonneg (y : ℚ) (hy : 0 ≤ y) : 0 ≤ jsRound y :=
  Int.floor_nonneg.mpr (by linarith)

/-- Adjacent target timestamps: with `0 < fps ≤ 1000` the rounded times are
strictly increasing and each step is within a millisecond of `1/fps`. -/
theorem targetTime_adjacent (f : ℚ) (hf : 0 < f) (hf1000 : f ≤ 1000) (i : ℚ) :
    (jsRound (i * (1 / f) * 1000) : ℚ) / 1000 <
      (jsRound ((i + 1) * (1 / f) * 1000) : ℚ) / 1000 ∧
    |(jsRound ((i + 1) * (1 / f) * 1000) : ℚ) / 1000 -
      (jsRound (i * (1 / f) * 1000) : ℚ) / 1000 - 1 / f| ≤ 1 / 1000 := by
  have hyy : (i + 1) * (1 / f) * 1000 = i * (1 / f) * 1000 + 1000 * (1 / f) := by
    ring
  have h1 := jsRound_le (i * (1 / f) * 1000)
  have h2 := lt_jsRound_add_one (i * (1 / f) * 1000)
  have h3 := jsRound_le ((i + 1) * (1 / f) * 1000)
  have h4 := lt_jsRound_add_one ((i + 1) * (1 / f) * 1000)
  have hu : (1 : ℚ) ≤ 1000 * (1 / f) := by
    rw [mul_one_div, le_div_iff₀ hf]
    linarith
  have hstrict : jsRound (i * (1 / f) * 1000) + 1 ≤
      jsRound ((i + 1) * (1 / f) * 1000) := by
    show ⌊i * (1 / f) * 1000 + 1/2⌋ + 1 ≤ ⌊(i + 1) * (1 / f) * 1000 + 1/2⌋
    rw [← Int.floor_add_one]
    exact Int.floor_mono (by rw [hyy]; linarith)
  have hstrictQ : (jsRound (i * (1 / f) * 1000) : ℚ) + 1 ≤
      (jsRound ((i + 1) * (1 / f) * 1000) : ℚ) := by
    exact_mod_cast hstrict
  constructor
  · exact (div_lt_div_iff_of_pos_right (by norm_num)).mpr (by linarith)
  · rw [abs_le]
    exact ⟨by linarith, by linarith⟩

/-- Each target timestamp of a run with `0 < duration`, `0 < fps ≤ 1000`
lies in `[0, duration)`. -/
theorem targetTime_mem_bounds (d f : ℚ) (_hd : 0 < d) (hf : 0 < f)
    (hf1000 : f ≤ 1000) (i : ℕ) (hi : i < (⌊d * f⌋).toNat) :
    0 ≤ (jsRound ((i : ℚ) * (1 / f) * 1000) : ℚ) / 1000 ∧
    (jsRound ((i : ℚ) * (1 / f) * 1000) : ℚ) / 1000 < d := by
  have h0 : (0 : ℤ) ≤ jsRound ((i : ℚ) * (1 / f) * 1000) :=
    jsRound_nonneg _ (by positivity)
  constructor
  · exact div_nonneg (by exact_mod_cast h0) (by norm_num)
  · have h1 : (i : ℤ) + 1 ≤ ⌊d * f⌋ := by omega
    have hiq : (i : ℚ) + 1 ≤ d * f := by
      have h2 := Int.le_floor.mp h1
      push_cast at h2
      linarith
    have hle := jsRound_le ((i : ℚ) * (1 / f) * 1000)
    have hu : (1 : ℚ) ≤ 1000 * (1 / f) := by
      rw [mul_one_div, le_div_iff₀ hf]
      linarith
    have hkey : (i : ℚ) * (1 / f) * 1000 ≤ (d * f - 1) * (1 / f) * 1000 := by
      have := mul_le_mul_of_nonneg_right
        (mul_le_mul_of_nonneg_right (by linarith : (i : ℚ) ≤ d * f - 1)
          (by positivity : (0 : ℚ) ≤ 1 / f))
        (by norm_num : (0 : ℚ) ≤ 1000)
      exact this
    have hsimp : (d * f - 1) * (1 / f) * 1000 = 1000 * d - 1000 * (1 / f) := by
      field_simp
      ring
    rw [div_lt_iff₀ (by norm_num : (0 : ℚ) < 1000)]
    linarith

/-- The concrete extraction at duration `0.001` s and fps `3000`: rounding to
milliseconds collapses the first two targets and pushes the last one to the
duration itself. -/
theorem calculateTargetFrameTimes_milli :
    calculateTargetFrameTimes (1/1000) 3000 = [0, 0, 1/1000] := by
  rw [calculateTargetFrameTimes, if_neg (by norm_num)]
  rw [show ⌊(1/1000 : ℚ) * 3000⌋ = 3 from by norm_num]
  dsimp only
  rw [show List.range (Int.toNat 3) = [0, 1, 2] from rfl]
  simp only [List.map, jsRound]
  norm_num

/-- C5 counterexample: at duration `0.001` s and fps `3000` the computed list
is `[0, 0, 0.001]` — not strictly increasing, with its last element equal to
the duration, refuting the claim for unbounded fps. -/
theorem targetTimes_sorted_range_counterexample :
    ¬((∀ x ∈ calculateTargetFrameTimes (1/1000) 3000, 0 ≤ x ∧ x < 1/1000) ∧
      (calculateTargetFrameTimes (1/1000) 3000).Chain'
        (fun a b => a < b ∧ |b - a - 1 / 3000| ≤ 1 / 1000)) := by
  rw [calculateTargetFrameTimes_milli]
  intro h
  have hmem := h.1 (1/1000) (by simp)
  exact absurd hmem.2 (by norm_num)

/-- C5 (amended): for `0 < duration` and `0 < fps ≤ 1000` every element of
`calculateTargetFrameTimes` lies in `[0, duration)` and the sequence is
strictly increasing, consecutive elements spaced by `1/fps` up to millisecond
rounding. -/
theorem calculateTargetFrameTimes_sorted_range (d f : ℚ) (hd : 0 < d)
    (hf : 0 < f) (hf1000 : f ≤ 1000) :
    (∀ x ∈ calculateTargetFrameTimes d f, 0 ≤ x ∧ x < d) ∧
    (calculateTargetFrameTimes d f).Chain'
      (fun a b => a < b ∧ |b - a - 1 / f| ≤ 1 / 1000) := by
  have hguard : ¬(d ≤ 0 ∨ f ≤ 0) := by
    push_neg
    exact ⟨hd, hf⟩
  have hunfold : calculateTargetFrameTimes d f =
      (List.range (⌊d * f⌋).toNat).map
        (fun (i : ℕ) => (jsRound ((i : ℚ) * (1 / f) * 1000) : ℚ) / 1000) := by
    rw [calculateTargetFrameTimes, if_neg hguard]
  constructor
  · intro x hx
    rw [hunfold] at hx
    obtain ⟨i, hi, rfl⟩ := List.mem_map.mp hx
    exact targetTime_mem_bounds d f hd hf hf1000 i (List.mem_range.mp hi)

  · rw [hunfold, List.chain'_iff_get]
    intro i hlen
    simp only [List.get_eq_getElem, List.getElem_map, List.getElem_range]
    push_cast
    exact targetTime_adjacent f hf hf1000 (i : ℚ)

/-- Closed-form instance of `calculateTargetFrameTimes_sorted_range`. -/
theorem calculateTargetFrameTimes_sorted_range_witness :
    ((0 : ℚ) < 2 ∧ (0 : ℚ) < 10 ∧ (10 : ℚ) ≤ 1000) ∧
    (calculateTargetFrameTimes 2 10).Chain'
      (fun a b => a < b ∧ |b - a - 1 / 10| ≤ 1 / 1000) :=
  ⟨⟨by norm_num, by norm_num, by norm_num⟩,
    (calculateTargetFrameTimes_sorted_range 2 10 (by norm_num) (by norm_num)
      (by norm_num)).2⟩

/-- A 1-second source at 2 fps yields the target timestamps `[0, 0.5]`. -/
theorem calculateTargetFrameTimes_one_two :
    calculateTargetFrameTimes 1 2 = [0, 1/2] := by
  rw [calculateTargetFrameTimes, if_neg (by norm_num)]
  rw [show ⌊(1 : ℚ) * 2⌋ = 2 from by norm_num]
  dsimp only
  rw [show List.range (Int.toNat 2) = [0, 1] from rfl]
  simp only [List.map, jsRound]
  norm_num

/-- C2: the code does not implement cancellation. In the scenario of
`staleCallbackTrace`, run 0 is in `sampling` with one pending
`requestVideoFrameCallback`; a second `generateFrames` call (run 1) clears
the partial sequence and the cursor but leaves run 0's callback registered,
so on the next decoded frame both chains fire and the published
`FrameSequence` contains a frame appended by run 0's chain (ghost run id 0)
interleaved with run 1's — the old run was never abandoned. -/
theorem stale_callback_pollutes_new_sequence :
    staleCallbackTrace.frames.map (fun fr => fr.runId) = [0, 1] ∧
    staleCallbackTrace.nextRunId = 2 := by
  constructor <;>
    norm_num [staleCallbackTrace, frameTick, generateFramesAgain,
      startExtraction, initState, getFrameStep, shouldCaptureFrame,
      calculateTargetFrameTimes_one_two, List.getD]

end Flipbook
